import Mathlib

/-!
Shallow embedding of the audio-notes application (`src/app.py`): the
vector-store access layer (`add_note_to_db`, `list_notes_from_db`), the
capture-session state machine of the `add_tab` block, and the result
rendering of the `search_tab` block.

External collaborators are parameters of the model:
* `hash`       — `md5(...).hexdigest()`, a content hash of an audio buffer;
* `transcribe` — the speech-to-text gateway (`transcribe_audio`);
* `embed`      — the embedding gateway (`get_embedding`);
* `sim`        — the vector store's similarity function (cosine in Qdrant).

Float vectors and scores are modelled as rationals; audio byte buffers as
`List Nat`; Streamlit session state as the `SessionState` structure; one
Streamlit script run of the `add_tab` body as the function `add_tab_run`.
-/

/-- A stored point: id, embedding vector, and the payload (here only the
note text, mirroring `payload={"text": note_text}`). -/
structure Point where
  id : Nat
  vector : List ℚ
  text : String
deriving DecidableEq

/-- The vector store collection, as the ordered list of its points. -/
abbrev Store := List Point

/-- Model of `qdrant_client.count(...)` with `exact=True`: the number of
points in the collection. -/
def Store.countPoints (s : Store) : Nat := s.length

/-- Upsert of a single point: replace the point with the same id if one
exists, otherwise append the point. -/
def Store.upsertPoint (s : Store) (p : Point) : Store :=
  if ∃ q ∈ s, q.id = p.id then s.map fun q => if q.id = p.id then p else q
  else s ++ [p]

/-- Model of `qdrant_client.upsert(collection_name, points)`: upsert every
point of the list in order. -/
def Store.upsert (s : Store) (ps : List Point) : Store :=
  ps.foldl Store.upsertPoint s

/-- The id assigned at write time in `add_note_to_db`:
`points_count.count + 1` (the spec's `next_id()`). -/
def next_id (s : Store) : Nat := s.countPoints + 1

/-- The single `PointStruct` built inside `add_note_to_db`:
`id = points_count.count + 1`, `vector = get_embedding(note_text)`,
`payload = {"text": note_text}`. -/
def notePoint (embed : String → List ℚ) (note_text : String) (s : Store) :
    Point :=
  ⟨next_id s, embed note_text, note_text⟩

/-- The points list passed to `qdrant_client.upsert` in `add_note_to_db`:
a one-element list holding `notePoint`. -/
def add_note_points (embed : String → List ℚ) (note_text : String)
    (s : Store) : List Point :=
  [notePoint embed note_text s]

/-- Model of `add_note_to_db(note_text)`: read the exact point count, then
upsert one point with id `count + 1`, vector `embed note_text` and payload
text `note_text`. -/
def add_note_to_db (embed : String → List ℚ) (note_text : String)
    (s : Store) : Store :=
  s.upsert (add_note_points embed note_text s)

/-- Model of `qdrant_client.scroll(collection_name, limit)[0]`: up to
`limit` points in store order, without scores. -/
def Store.scroll (s : Store) (limit : Nat) : List Point := s.take limit

/-- A point annotated with its similarity score, as returned by
`qdrant_client.search`. -/
structure ScoredPoint where
  point : Point
  score : ℚ
deriving DecidableEq

/-- Model of `qdrant_client.search(collection_name, query_vector, limit)`:
every point scored by similarity to the query vector, ranked descending by
score, truncated to `limit`. -/
def Store.search (sim : List ℚ → List ℚ → ℚ) (s : Store)
    (query_vector : List ℚ) (limit : Nat) : List ScoredPoint :=
  ((s.map fun p => ScoredPoint.mk p (sim query_vector p.vector)).insertionSort
    fun a b => b.score ≤ a.score).take limit

/-- One entry of the list returned by `list_notes_from_db`: the dict
`{"text": ..., "score": ...}` where score is `None` in listing mode. -/
structure SearchResult where
  text : String
  score : Option ℚ
deriving DecidableEq

/-- Model of `list_notes_from_db(query=None)`. `query` is `None` or a
string; `if not query:` is Python truthiness, so `None` and `""` both
select listing mode. Listing mode scrolls with limit 10 and attaches no
score; search mode embeds the query, searches with limit 10 and attaches
each hit's score. -/
def list_notes_from_db (embed : String → List ℚ)
    (sim : List ℚ → List ℚ → ℚ) (s : Store) (query : Option String) :
    List SearchResult :=
  if query.getD "" = "" then
    (s.scroll 10).map fun note => ⟨note.text, none⟩
  else
    (s.search sim (embed (query.getD "")) 10).map fun note =>
      ⟨note.point.text, some note.score⟩

/-- The Streamlit session state fields used by the capture flow:
`current_md5_file`, `note_audio_bytes`, `note_text` (the committed /
edited text) and `note_audio_text` (the transcription). -/
structure SessionState where
  current_md5_file : Option String
  note_audio_bytes : Option (List Nat)
  note_text : String
  note_audio_text : String
deriving DecidableEq

/-- The initial session state set up before the tabs render. -/
def initialSessionState : SessionState := ⟨none, none, "", ""⟩

/-- Model of `st.text_area(..., value=value, disabled=True)`: a disabled
Streamlit widget ignores user input and returns its `value` argument; an
enabled one returns what the user typed. -/
def text_area (value : String) (disabled : Bool) (user_input : String) :
    String :=
  if disabled then value else user_input

/-- The external inputs of one script run of the `add_tab` body: the
recorder output (`None` when no recording exists), whether the two buttons
were pressed, and whatever the user would type into the transcription text
area. -/
structure AddTabInput where
  note_audio : Option (List Nat)
  transcribe_clicked : Bool
  user_edit : String
  save_clicked : Bool

/-- The `if note_audio:` block up to the fingerprint check: store the new
bytes, compute their md5, and if it differs from `current_md5_file` reset
both text fields and record the new fingerprint. -/
def new_audio_step (hash : List Nat → String) (bytes : List Nat)
    (st : SessionState) : SessionState :=
  let st1 : SessionState := { st with note_audio_bytes := some bytes }
  let current_md5 := hash bytes
  if st1.current_md5_file ≠ some current_md5 then
    { st1 with
        note_audio_text := ""
        note_text := ""
        current_md5_file := some current_md5 }
  else st1

/-- The `if st.button("Transkrybuj audio"):` block: when clicked, set
`note_audio_text` to the transcription of the stored audio bytes. -/
def transcribe_step (transcribe : List Nat → String) (clicked : Bool)
    (st : SessionState) : SessionState :=
  if clicked then
    { st with note_audio_text := transcribe (st.note_audio_bytes.getD []) }
  else st

/-- The `if st.session_state["note_audio_text"]:` block: when the
transcription is non-empty, `note_text` is set to the value returned by the
disabled text area (which is always its `value`, the transcription). -/
def sync_text_step (user_edit : String) (st : SessionState) :
    SessionState :=
  if st.note_audio_text ≠ "" then
    { st with note_text := text_area st.note_audio_text true user_edit }
  else st

/-- The commit line: `if st.session_state["note_text"] and st.button(...):`
— the note is written only when `note_text` is non-empty and the save
button fired; session state is untouched either way. -/
def commit_step (embed : String → List ℚ) (clicked : Bool)
    (st : SessionState) (store : Store) : SessionState × Store :=
  if st.note_text ≠ "" ∧ clicked then
    (st, add_note_to_db embed st.note_text store)
  else (st, store)

/-- One full script run of the `add_tab` body: nothing happens without a
recording; otherwise the fingerprint check, the optional transcription, the
text-area sync and the optional commit run in source order. -/
def add_tab_run (hash : List Nat → String)
    (transcribe : List Nat → String) (embed : String → List ℚ)
    (inp : AddTabInput) (st : SessionState) (store : Store) :
    SessionState × Store :=
  match inp.note_audio with
  | none => (st, store)
  | some bytes =>
      let st1 := new_audio_step hash bytes st
      let st2 := transcribe_step transcribe inp.transcribe_clicked st1
      let st3 := sync_text_step inp.user_edit st2
      commit_step embed inp.save_clicked st3 store

/-- One markdown emission of the `search_tab` result loop: either the note
text or the violet score line. -/
inductive RenderItem where
  | textLine : String → RenderItem
  | scoreLine : ℚ → RenderItem
deriving DecidableEq

/-- Rendering of one search result in `search_tab`: the text is always
shown; the score line is shown only under `if note["score"]:`, i.e. only
when the score is present and non-zero (Python truthiness of `None` and of
the float `0.0` is false). -/
def render_note (note : SearchResult) : List RenderItem :=
  match note.score with
  | none => [RenderItem.textLine note.text]
  | some s =>
      if s = 0 then [RenderItem.textLine note.text]
      else [RenderItem.textLine note.text, RenderItem.scoreLine s]

/-- Rendering of the whole result list of the `search_tab` loop. -/
def search_tab_render (notes : List SearchResult) : List RenderItem :=
  (notes.map render_note).flatten

/-! ## Concrete test fixtures used by witnesses -/

/-- Test embedding gateway: every text maps to the vector `[1]`. -/
def embedOne : String → List ℚ := fun _ => [1]

/-- Test similarity function: every pair of vectors scores `1`. -/
def simConst : List ℚ → List ℚ → ℚ := fun _ _ => 1

/-- Test content hash distinguishing the buffer `[1]` from all others. -/
def testHash : List Nat → String := fun b => if b = [1] then "h1" else "h2"

/-- Test transcription gateway returning a fixed non-empty text. -/
def testTranscribe : List Nat → String := fun _ => "hello"

/-- Test transcription gateway returning the empty string (no speech). -/
def emptyTranscribe : List Nat → String := fun _ => ""

/-- A session holding audio `[1]` already transcribed to `"hello"`. -/
def staleState : SessionState := ⟨some "h1", some [1], "hello", "hello"⟩

/-- A five-point store with ids 1..5. -/
def store5 : Store :=
  [⟨1, [1], "a"⟩, ⟨2, [1], "b"⟩, ⟨3, [1], "c"⟩, ⟨4, [1], "d"⟩, ⟨5, [1], "e"⟩]

/-- A two-point store used by the search witnesses. -/
def store2 : Store := [⟨1, [1], "buy milk"⟩, ⟨2, [1], "call mom"⟩]

/-! ## Helper lemmas -/

/-- Upserting a point whose id is absent from the store appends it. -/
theorem upsertPoint_fresh (s : Store) (p : Point)
    (h : ∀ q ∈ s, q.id ≠ p.id) : Store.upsertPoint s p = s ++ [p] := by
  have hne : ¬ ∃ q ∈ s, q.id = p.id := by
    rintro ⟨q, hq, hid⟩
    exact h q hq hid
  simp only [Store.upsertPoint]
  exact if_neg hne

/-- When the assigned id `count + 1` is absent from the store,
`add_note_to_db` appends the single new point. -/
theorem add_note_to_db_fresh (embed : String → List ℚ) (t : String)
    (s : Store) (h : ∀ q ∈ s, q.id ≠ next_id s) :
    add_note_to_db embed t s = s ++ [notePoint embed t s] := by
  simp only [add_note_to_db, add_note_points, Store.upsert, List.foldl]
  exact upsertPoint_fresh s _ h

/-- Normal form of the fingerprint check: keep the state (with the new
bytes) when the md5 matches, otherwise reset both texts and record the new
fingerprint. -/
theorem new_audio_step_eq (hash : List Nat → String) (b : List Nat)
    (st : SessionState) :
    new_audio_step hash b st =
      if st.current_md5_file = some (hash b) then
        { st with note_audio_bytes := some b }
      else ⟨some (hash b), some b, "", ""⟩ := by
  unfold new_audio_step
  by_cases h : st.current_md5_file = some (hash b) <;> simp [h]

/-- The fingerprint check always leaves `current_md5_file` at the hash of
the delivered bytes. -/
theorem new_audio_step_md5 (hash : List Nat → String) (b : List Nat)
    (st : SessionState) :
    (new_audio_step hash b st).current_md5_file = some (hash b) := by
  rw [new_audio_step_eq]
  by_cases h : st.current_md5_file = some (hash b) <;> simp [h]

/-- The fingerprint check always leaves `note_audio_bytes` at the
delivered bytes. -/
theorem new_audio_step_bytes (hash : List Nat → String) (b : List Nat)
    (st : SessionState) :
    (new_audio_step hash b st).note_audio_bytes = some b := by
  rw [new_audio_step_eq]
  by_cases h : st.current_md5_file = some (hash b) <;> simp [h]

/-- Delivering bytes whose hash and value are already recorded leaves the
state untouched. -/
theorem new_audio_step_stable (hash : List Nat → String) (b : List Nat)
    (st : SessionState) (hm : st.current_md5_file = some (hash b))
    (hb : st.note_audio_bytes = some b) :
    new_audio_step hash b st = st := by
  rw [new_audio_step_eq, if_pos hm, ← hb]

/-- Normal form of the text-area sync: a no-op on an empty transcription,
otherwise `note_text` is set to the transcription (the disabled widget
returns its value). -/
theorem sync_text_step_eq (e : String) (st : SessionState) :
    sync_text_step e st =
      if st.note_audio_text = "" then st
      else { st with note_text := st.note_audio_text } := by
  unfold sync_text_step text_area
  by_cases h : st.note_audio_text = "" <;> simp [h]

/-- The text-area sync never changes the stored fingerprint. -/
theorem sync_text_step_md5 (e : String) (st : SessionState) :
    (sync_text_step e st).current_md5_file = st.current_md5_file := by
  rw [sync_text_step_eq]
  split <;> rfl

/-- The text-area sync never changes the stored audio bytes. -/
theorem sync_text_step_bytes (e : String) (st : SessionState) :
    (sync_text_step e st).note_audio_bytes = st.note_audio_bytes := by
  rw [sync_text_step_eq]
  split <;> rfl

/-- After the text-area sync, either `note_text` agrees with the
transcription or the transcription is empty. -/
theorem sync_text_step_synced (e : String) (st : SessionState) :
    (sync_text_step e st).note_text = (sync_text_step e st).note_audio_text ∨
    (sync_text_step e st).note_audio_text = "" := by
  rw [sync_text_step_eq]
  by_cases h : st.note_audio_text = ""
  · right
    simp [h]
  · left
    simp [h]

/-- The text-area sync is a no-op when `note_text` already agrees with the
transcription or the transcription is empty. -/
theorem sync_text_step_stable (e : String) (st : SessionState)
    (h : st.note_text = st.note_audio_text ∨ st.note_audio_text = "") :
    sync_text_step e st = st := by
  obtain ⟨m, ab, t0, a0⟩ := st
  rw [sync_text_step_eq]
  rcases h with h | h
  · have h1 : t0 = a0 := h
    subst h1
    split <;> rfl
  · have h1 : a0 = "" := h
    simp [h1]

/-- A run with a recording and neither button pressed reduces to the
fingerprint check followed by the text-area sync; the store is untouched. -/
theorem add_tab_run_no_click_eq (hash transcribe : List Nat → String)
    (embed : String → List ℚ) (b : List Nat) (e : String)
    (st : SessionState) (store : Store) :
    add_tab_run hash transcribe embed ⟨some b, false, e, false⟩ st store =
      (sync_text_step e (new_audio_step hash b st), store) := by
  simp [add_tab_run, transcribe_step, commit_step]

/-! ## Claims -/

/-- Claim C1: for every commit with a non-empty edited text `t`, exactly
one point is written to the store, its payload text equals `t` and its
vector equals `embed t` computed from that same `t` in the same operation;
when the assigned id is fresh the store gains exactly that point. -/
theorem commit_writes_single_consistent_point
    (embed : String → List ℚ) (t : String) (s : Store)
    (_ht : t ≠ "") (hfresh : ∀ q ∈ s, q.id ≠ next_id s) :
    add_note_points embed t s = [notePoint embed t s] ∧
    (notePoint embed t s).text = t ∧
    (notePoint embed t s).vector = embed t ∧
    add_note_to_db embed t s = s ++ [notePoint embed t s] := by
  exact ⟨rfl, rfl, rfl, add_note_to_db_fresh embed t s hfresh⟩

/-- Witness for C1: committing `"buy milk"` to an empty store writes the
single point with id 1, vector `embed "buy milk"` and text `"buy milk"`. -/
theorem commit_writes_single_consistent_point_witness :
    add_note_to_db embedOne "buy milk" [] = [⟨1, [(1 : ℚ)], "buy milk"⟩] := by
  have h := commit_writes_single_consistent_point embedOne "buy milk" []
    (by decide) (by simp)
  exact h.2.2.2.trans (by decide)

/-- Claim C4: the assigned id is `count + 1`; when every existing id is at
most the point count, a commit appends, and two sequential commits from
count `n` assign ids `n + 1` then `n + 2` — strictly increasing. -/
theorem next_id_monotone
    (embed : String → List ℚ) (t1 t2 : String) (s : Store)
    (h : ∀ q ∈ s, q.id ≤ s.countPoints) :
    next_id s = s.countPoints + 1 ∧
    (notePoint embed t1 s).id = s.countPoints + 1 ∧
    add_note_to_db embed t1 s = s ++ [notePoint embed t1 s] ∧
    (notePoint embed t2 (add_note_to_db embed t1 s)).id = s.countPoints + 2 ∧
    (notePoint embed t1 s).id <
      (notePoint embed t2 (add_note_to_db embed t1 s)).id := by
  have hfresh : ∀ q ∈ s, q.id ≠ next_id s := fun q hq =>
    Nat.ne_of_lt (Nat.lt_succ_of_le (h q hq))
  have hadd := add_note_to_db_fresh embed t1 s hfresh
  refine ⟨rfl, rfl, hadd, ?_, ?_⟩
  · simp [notePoint, next_id, Store.countPoints, hadd]
  · simp [notePoint, next_id, Store.countPoints, hadd]

/-- Witness for C4: from a store with count 5 (ids 1..5), two sequential
commits are assigned id 6 then id 7. -/
theorem next_id_monotone_witness :
    (notePoint embedOne "x" store5).id = 6 ∧
    (notePoint embedOne "y" (add_note_to_db embedOne "x" store5)).id = 7 := by
  have h := next_id_monotone embedOne "x" "y" store5 (by decide)
  exact ⟨h.2.1, h.2.2.2.1⟩

/-- Claim C5: with empty `note_text`, the commit step performs no store
write and leaves everything unchanged, even when the save button fires —
the guard `if st.session_state["note_text"] and st.button(...)` is in the
controller code, not only in the button's disabled attribute. -/
theorem commit_empty_text_noop
    (embed : String → List ℚ) (clicked : Bool) (st : SessionState)
    (store : Store) (h : st.note_text = "") :
    commit_step embed clicked st store = (st, store) := by
  simp [commit_step, h]

/-- Witness for C5: the commit step on the initial (empty-text) session
with the button pressed leaves the empty store empty. -/
theorem commit_empty_text_noop_witness :
    commit_step embedOne true initialSessionState [] =
      (initialSessionState, []) :=
  commit_empty_text_noop embedOne true initialSessionState [] rfl

/-- Claim C9: a successful commit (non-empty `note_text`, button pressed)
writes the note and returns the session state completely unchanged — no
field of the capture session is cleared. -/
theorem commit_preserves_session
    (embed : String → List ℚ) (st : SessionState) (store : Store)
    (h : st.note_text ≠ "") :
    commit_step embed true st store =
      (st, add_note_to_db embed st.note_text store) := by
  simp [commit_step, h]

/-- Witness for C9: committing from the session holding `"hello"` writes
the note and returns the very same session state. -/
theorem commit_preserves_session_witness :
    commit_step embedOne true staleState [] =
      (staleState, add_note_to_db embedOne "hello" []) :=
  commit_preserves_session embedOne staleState [] (by decide)

/-- Claim C10: the score line is rendered only when the score is truthy:
a `None` score and a `0` score both render as the bare text line, making a
zero-similarity hit indistinguishable from an unscored listing entry, while
a non-zero score renders with its score line. -/
theorem zero_score_rendered_unscored (t : String) (q : ℚ) :
    render_note ⟨t, some 0⟩ = [RenderItem.textLine t] ∧
    render_note ⟨t, none⟩ = [RenderItem.textLine t] ∧
    render_note ⟨t, some 0⟩ = render_note ⟨t, none⟩ ∧
    (q ≠ 0 → render_note ⟨t, some q⟩ =
      [RenderItem.textLine t, RenderItem.scoreLine q]) := by
  refine ⟨by simp [render_note], by simp [render_note],
    by simp [render_note], fun h => by simp [render_note, h]⟩

/-- Witness for C10: a zero-scored hit renders exactly like an unscored
listing entry, while a half-scored hit shows its score line. -/
theorem zero_score_rendered_unscored_witness :
    render_note ⟨"note", some 0⟩ = render_note ⟨"note", none⟩ ∧
    render_note ⟨"note", some (1 / 2)⟩ =
      [RenderItem.textLine "note", RenderItem.scoreLine (1 / 2)] := by
  have h := zero_score_rendered_unscored "note" (1 / 2)
  exact ⟨h.2.2.1, h.2.2.2 (by norm_num)⟩

/-- Claim C6: an absent or empty query lists via `scroll` with limit 10
and attaches no score, preserving store order; a non-empty query embeds the
query and searches with that vector and limit 10, attaching each hit's
similarity score; both modes return at most 10 entries. -/
theorem search_controller_modes
    (embed : String → List ℚ) (sim : List ℚ → List ℚ → ℚ)
    (s : Store) (query : Option String) :
    (list_notes_from_db embed sim s query).length ≤ 10 ∧
    (query.getD "" = "" →
      list_notes_from_db embed sim s query =
        (s.scroll 10).map fun note => (⟨note.text, none⟩ : SearchResult)) ∧
    (∀ q, query = some q → q ≠ "" →
      list_notes_from_db embed sim s query =
        (s.search sim (embed q) 10).map fun note =>
          (⟨note.point.text, some note.score⟩ : SearchResult)) := by
  refine ⟨?_, ?_, ?_⟩
  · unfold list_notes_from_db
    split
    · simp only [List.length_map, Store.scroll, List.length_take]
      omega
    · simp only [List.length_map, Store.search, List.length_take]
      omega
  · intro h
    simp [list_notes_from_db, h]
  · intro q hq hne
    subst hq
    simp [list_notes_from_db, hne]

/-- Witness for C6: on the two-note store, the query `"milk"` takes the
search branch with the embedded query vector, and the absent query takes
the scroll branch with no scores. -/
theorem search_controller_modes_witness :
    list_notes_from_db embedOne simConst store2 (some "milk") =
      (store2.search simConst (embedOne "milk") 10).map
        (fun note => (⟨note.point.text, some note.score⟩ : SearchResult)) ∧
    list_notes_from_db embedOne simConst store2 none =
      (store2.scroll 10).map
        (fun note => (⟨note.text, none⟩ : SearchResult)) := by
  exact ⟨(search_controller_modes embedOne simConst store2
      (some "milk")).2.2 "milk" rfl (by decide),
    (search_controller_modes embedOne simConst store2 none).2.1 rfl⟩

/-- Claim C2: delivering audio whose fingerprint differs from the recorded
one stores the new bytes and fingerprint and resets both the transcription
and the edited text to empty; the store is untouched. -/
theorem new_audio_resets_transcript
    (hash transcribe : List Nat → String) (embed : String → List ℚ)
    (b2 : List Nat) (e : String) (st : SessionState) (store : Store)
    (h : st.current_md5_file ≠ some (hash b2)) :
    add_tab_run hash transcribe embed ⟨some b2, false, e, false⟩ st store =
      (⟨some (hash b2), some b2, "", ""⟩, store) := by
  rw [add_tab_run_no_click_eq, new_audio_step_eq, if_neg h, sync_text_step_eq]
  simp

/-- Witness for C2: record `[1]`, transcribe it to `"hello"` (both text
fields become `"hello"`), then deliver `[2]` whose fingerprint differs —
both text fields are reset to empty. -/
theorem new_audio_resets_transcript_witness :
    (add_tab_run testHash testTranscribe embedOne ⟨some [1], true, "", false⟩
        (add_tab_run testHash testTranscribe embedOne
          ⟨some [1], false, "", false⟩ initialSessionState []).1 []).1.note_text
      = "hello" ∧
    add_tab_run testHash testTranscribe embedOne ⟨some [2], false, "", false⟩
        (add_tab_run testHash testTranscribe embedOne ⟨some [1], true, "", false⟩
          (add_tab_run testHash testTranscribe embedOne
            ⟨some [1], false, "", false⟩ initialSessionState []).1 []).1 [] =
      (⟨some (testHash [2]), some [2], "", ""⟩, []) := by
  refine ⟨by decide, ?_⟩
  exact new_audio_resets_transcript testHash testTranscribe embedOne [2] ""
    (add_tab_run testHash testTranscribe embedOne ⟨some [1], true, "", false⟩
      (add_tab_run testHash testTranscribe embedOne
        ⟨some [1], false, "", false⟩ initialSessionState []).1 []).1 []
    (by decide)

/-- Claim C3: delivering the same audio bytes twice in a row is
idempotent — the second delivery changes neither the session state (in
particular `note_text` and `note_audio_text`) nor the store. -/
theorem same_audio_redelivery_idempotent
    (hash transcribe : List Nat → String) (embed : String → List ℚ)
    (b : List Nat) (e1 e2 : String) (st : SessionState) (store : Store) :
    add_tab_run hash transcribe embed ⟨some b, false, e2, false⟩
        (add_tab_run hash transcribe embed ⟨some b, false, e1, false⟩
          st store).1
        (add_tab_run hash transcribe embed ⟨some b, false, e1, false⟩
          st store).2 =
      add_tab_run hash transcribe embed ⟨some b, false, e1, false⟩
        st store := by
  simp only [add_tab_run_no_click_eq]
  have hmd : (sync_text_step e1 (new_audio_step hash b st)).current_md5_file
      = some (hash b) := by
    rw [sync_text_step_md5, new_audio_step_md5]
  have hby : (sync_text_step e1 (new_audio_step hash b st)).note_audio_bytes
      = some b := by
    rw [sync_text_step_bytes, new_audio_step_bytes]
  rw [new_audio_step_stable hash b _ hmd hby,
    sync_text_step_stable e2 _ (sync_text_step_synced e1 (new_audio_step hash b st))]

/-- A session holding audio `[1]` with prior texts differing from any new
transcription result. -/
def priorState : SessionState :=
  ⟨some "h1", some [1], "prior edit", "prior transcript"⟩

/-- A run that re-delivers already-registered audio with the transcribe
button pressed: the transcription field always takes the gateway result,
but `note_text` is overwritten only when that result is non-empty — the
sync block is guarded by `if st.session_state["note_audio_text"]:`. -/
theorem add_tab_run_transcribe_eq
    (hash transcribe : List Nat → String) (embed : String → List ℚ)
    (b : List Nat) (e : String) (st : SessionState) (store : Store)
    (hm : st.current_md5_file = some (hash b)) :
    add_tab_run hash transcribe embed ⟨some b, true, e, false⟩ st store =
      ({ st with
          note_audio_bytes := some b
          note_audio_text := transcribe b
          note_text := if transcribe b = "" then st.note_text
            else transcribe b },
        store) := by
  obtain ⟨m, ab, t0, a0⟩ := st
  have hm1 : m = some (hash b) := hm
  subst hm1
  by_cases hr : transcribe b = "" <;>
    simp [add_tab_run, new_audio_step, transcribe_step, sync_text_step,
      text_area, commit_step, hr]

/-- Counterexample to claim C7 as stated: in a session whose audio `[1]`
was already transcribed and edited to `"hello"`, re-invoking Transcribe with
a gateway result of `""` clears `note_audio_text` but leaves `note_text` at
`"hello"` — the empty result does not overwrite the edited text. -/
theorem transcribe_empty_result_keeps_edited_text :
    (add_tab_run testHash emptyTranscribe embedOne
        ⟨some [1], true, "", false⟩ staleState []).1.note_audio_text = "" ∧
    (add_tab_run testHash emptyTranscribe embedOne
        ⟨some [1], true, "", false⟩ staleState []).1.note_text = "hello" ∧
    ("hello" : String) ≠ "" := by
  exact ⟨by decide, by decide, by decide⟩

/-- Claim C7 (amended): with non-empty audio whose fingerprint is already
registered, Transcribe sets `note_audio_text` to the gateway result `r` and
overwrites `note_text` with `r` only when `r` is non-empty; when `r` is the
empty string, `note_text` keeps its previous value. -/
theorem transcribe_overwrites_both_fields_amended
    (hash transcribe : List Nat → String) (embed : String → List ℚ)
    (b : List Nat) (e : String) (st : SessionState) (store : Store)
    (hm : st.current_md5_file = some (hash b)) :
    (add_tab_run hash transcribe embed ⟨some b, true, e, false⟩
        st store).1.note_audio_text = transcribe b ∧
    (add_tab_run hash transcribe embed ⟨some b, true, e, false⟩
        st store).1.note_text =
      (if transcribe b = "" then st.note_text else transcribe b) ∧
    (add_tab_run hash transcribe embed ⟨some b, true, e, false⟩
        st store).2 = store := by
  rw [add_tab_run_transcribe_eq hash transcribe embed b e st store hm]
  exact ⟨rfl, rfl, rfl⟩

/-- Witness for the amended C7: from prior texts `"prior edit"` and
`"prior transcript"`, a non-empty transcription `"hello"` overwrites both
fields. -/
theorem transcribe_overwrites_both_fields_amended_witness :
    (add_tab_run testHash testTranscribe embedOne
        ⟨some [1], true, "", false⟩ priorState []).1.note_audio_text
      = "hello" ∧
    (add_tab_run testHash testTranscribe embedOne
        ⟨some [1], true, "", false⟩ priorState []).1.note_text = "hello" := by
  have h := transcribe_overwrites_both_fields_amended testHash testTranscribe
    embedOne [1] "" priorState [] (by decide)
  exact ⟨h.1, h.2.1.trans (by decide)⟩

/-- A run that re-delivers already-registered audio with a non-empty
transcription on display: whatever the user typed, the disabled text area
forces `note_text` back to the transcription, and a save commits exactly
that transcription. -/
theorem add_tab_run_synced_eq
    (hash transcribe : List Nat → String) (embed : String → List ℚ)
    (b : List Nat) (e : String) (sv : Bool) (st : SessionState)
    (store : Store) (hm : st.current_md5_file = some (hash b))
    (ht : st.note_audio_text ≠ "") :
    add_tab_run hash transcribe embed ⟨some b, false, e, sv⟩ st store =
      ({ st with
          note_audio_bytes := some b
          note_text := st.note_audio_text },
        if sv then add_note_to_db embed st.note_audio_text store
        else store) := by
  obtain ⟨m, ab, t0, a0⟩ := st
  have hm1 : m = some (hash b) := hm
  have ht1 : a0 ≠ "" := ht
  subst hm1
  cases sv <;>
    simp [add_tab_run, new_audio_step, transcribe_step, sync_text_step,
      text_area, commit_step, ht1]

/-- Counterexample to claim C8 as stated: in a session whose transcription
is `"hello"`, the user edit input `"bye"` (the only text channel of the
capture flow, the disabled text area) leaves `note_text` at `"hello"` — no
edit event can make the edited text differ from the transcription. -/
theorem user_edit_ignored :
    (add_tab_run testHash testTranscribe embedOne
        ⟨some [1], false, "bye", false⟩ staleState []).1.note_text
      = "hello" ∧
    ("bye" : String) ≠ "hello" := by
  exact ⟨by decide, by decide⟩

/-- Claim C8 (amended): `note_text` is initialized from the transcription
but cannot be overridden by the user — the text area is disabled, so after
any run with a non-empty transcription `note_text` equals
`note_audio_text` whatever the user typed, and a commit persists exactly
the transcription. -/
theorem edited_text_tracks_transcript_amended
    (hash transcribe : List Nat → String) (embed : String → List ℚ)
    (b : List Nat) (e : String) (sv : Bool) (st : SessionState)
    (store : Store) (hm : st.current_md5_file = some (hash b))
    (ht : st.note_audio_text ≠ "") :
    (add_tab_run hash transcribe embed ⟨some b, false, e, sv⟩
        st store).1.note_text = st.note_audio_text ∧
    (add_tab_run hash transcribe embed ⟨some b, false, e, true⟩
        st store).2 = add_note_to_db embed st.note_audio_text store := by
  constructor
  · rw [add_tab_run_synced_eq hash transcribe embed b e sv st store hm ht]
  · rw [add_tab_run_synced_eq hash transcribe embed b e true st store hm ht]
    simp

/-- Witness for the amended C8: with transcription `"hello"` and user input
`"bye"`, the run keeps `note_text = "hello"` and a save writes the note
`"hello"`. -/
theorem edited_text_tracks_transcript_amended_witness :
    (add_tab_run testHash testTranscribe embedOne
        ⟨some [1], false, "bye", false⟩ staleState []).1.note_text
      = "hello" ∧
    (add_tab_run testHash testTranscribe embedOne
        ⟨some [1], false, "bye", true⟩ staleState []).2 =
      add_note_to_db embedOne "hello" [] := by
  have h := edited_text_tracks_transcript_amended testHash testTranscribe
    embedOne [1] "bye" false staleState [] (by decide) (by decide)
  exact ⟨h.1, h.2⟩
